import Mathlib

/-!
Verification of the silverpop API client core (`silverpop/api.py`).

We shallowly embed the request-submission protocol of `API._submit_request`,
`API.login`, `API.__init__` and the result post-processing routine
`API._sanitize_columns_in_api_result`.

Decoded XML response bodies are modelled by the type `Value`
(string / dict / list), the universe of values the XML-to-dict decoder
produces.  Python dictionary operations (`d[k]`, `d.get(k, default)`,
`len`, truthiness, `str()` formatting) are modelled faithfully, including
the runtime errors (`KeyError`, `AttributeError`, `TypeError`) they raise
on values of the wrong shape.

The HTTP transport together with the XML decoding of `response.content`
down to the `Envelope.Body` sub-tree is abstracted as an oracle
`ts : Nat → Value` giving the decoded body tree of the n-th POST performed;
each POST performed is recorded in an event log.
-/

namespace Silverpop

/-- A decoded XML value: string leaf, dictionary, or list of siblings. -/
inductive Value where
  | str (s : String)
  | dict (kvs : List (String × Value))
  | list (vs : List Value)

/-- Python runtime errors that the submission pipeline can raise. -/
inductive PyErr where
  | keyError (k : String)
  | attrError
  | typeError
deriving DecidableEq, Repr

/-- Python `d.get(k, dflt)`: on a dict returns the value or the default;
on a string or list raises `AttributeError`. -/
def pyGetD (v : Value) (k : String) (dflt : Value) : Except PyErr Value :=
  match v with
  | .dict kvs => .ok ((kvs.lookup k).getD dflt)
  | _ => .error .attrError

/-- Python `d.get(k)` (default `None`, modelled as `none`): on a dict returns
an optional value; otherwise raises `AttributeError`. -/
def pyGetOpt (v : Value) (k : String) : Except PyErr (Option Value) :=
  match v with
  | .dict kvs => .ok (kvs.lookup k)
  | _ => .error .attrError

/-- Python `d[k]` subscription with a string key: `KeyError` when the key is
absent from a dict, `TypeError` on a string or list. -/
def pyItem (v : Value) (k : String) : Except PyErr Value :=
  match v with
  | .dict kvs =>
    match kvs.lookup k with
    | some x => .ok x
    | none => .error (.keyError k)
  | _ => .error .typeError

/-- Python `len` on a string, dict or list. -/
def pyLen : Value → Nat
  | .str s => s.length
  | .dict kvs => kvs.length
  | .list vs => vs.length

/-- Python truthiness of an optional value (`None`, `""`, `{}` and `[]`
are falsy). -/
def pyTruthy : Option Value → Bool
  | none => false
  | some (.str s) => !s.isEmpty
  | some (.dict kvs) => !kvs.isEmpty
  | some (.list vs) => !vs.isEmpty

mutual

/-- Python `str()` of a value (as used by `'%s' % v` formatting): a string
formats as itself at top level is handled in `pyStr`; nested values use
their `repr`-style rendering. -/
def pyReprV : Value → String
  | .str s => "\x27" ++ s ++ "\x27"
  | .dict kvs => "\x7b" ++ pyReprKVs kvs ++ "\x7d"
  | .list vs => "[" ++ pyReprVs vs ++ "]"

/-- Render the entries of a Python dict, comma-separated. -/
def pyReprKVs : List (String × Value) → String
  | [] => ""
  | [(k, v)] => "\x27" ++ k ++ "\x27: " ++ pyReprV v
  | (k, v) :: rest => "\x27" ++ k ++ "\x27: " ++ pyReprV v ++ ", " ++ pyReprKVs rest

/-- Render the items of a Python list, comma-separated. -/
def pyReprVs : List Value → String
  | [] => ""
  | [v] => pyReprV v
  | v :: rest => pyReprV v ++ ", " ++ pyReprVs rest

end

/-- Python `'%s' % x` where `x` is an optional value (`None` formats as
the text `None`; a string formats as itself). -/
def pyStr : Option Value → String
  | none => "None"
  | some (.str s) => s
  | some v => pyReprV v

/-- Python dict assignment `d[k] = v`: overwrite in place (keeping the key's
original position) when `k` is present, append otherwise. -/
def dictSet : List (String × Value) → String → Value → List (String × Value)
  | [], k, v => [(k, v)]
  | (k1, v1) :: rest, k, v =>
    if k1 == k then (k, v) :: rest else (k1, v1) :: dictSet rest k v

/-- Python `d[k] = v` on a decoded value; `TypeError` when `d` is not
a dict. -/
def setItem (d : Value) (k : String) (v : Value) : Except PyErr Value :=
  match d with
  | .dict kvs => .ok (.dict (dictSet kvs k v))
  | _ => .error .typeError

/-- Use a value as a Python dict key: strings are hashable, dicts and lists
raise `TypeError` (unhashable). -/
def asKey : Value → Except PyErr String
  | .str s => .ok s
  | _ => .error .typeError

/-- The loop body of `_sanitize_columns_in_api_result` over a list-shaped
`COLUMN` value: `out[column['NAME']] = column['VALUE']` for each item
(the assignment's right-hand side is evaluated before the key). -/
def buildColumns : List Value → List (String × Value) →
    Except PyErr (List (String × Value))
  | [], out => .ok out
  | c :: rest, out =>
    match pyItem c "VALUE" with
    | .error e => .error e
    | .ok v =>
      match pyItem c "NAME" with
      | .error e => .error e
      | .ok nm =>
        match asKey nm with
        | .error e => .error e
        | .ok k => buildColumns rest (dictSet out k v)

/-- `API._sanitize_columns_in_api_result`: normalize a `COLUMNS.COLUMN`
sub-tree into a flat `NAME → VALUE` mapping, replacing `data['COLUMNS']`.
Mirrors the source, including its behaviour on ill-shaped input: a
non-dict `data` or non-dict `COLUMNS` raises `AttributeError` at the
`.get` calls; a non-empty string `COLUMN` raises `TypeError` when its
first character is subscripted by `'NAME'`. -/
def sanitizeColumns (data : Value) : Except PyErr Value :=
  match pyGetD data "COLUMNS" (.dict []) with
  | .error e => .error e
  | .ok cv =>
    match pyGetD cv "COLUMN" (.list []) with
    | .error e => .error e
    | .ok columns =>
      if pyLen columns < 1 then .ok data
      else
        match columns with
        | .dict kvs =>
          match pyItem (.dict kvs) "VALUE" with
          | .error e => .error e
          | .ok v =>
            match pyItem (.dict kvs) "NAME" with
            | .error e => .error e
            | .ok nm =>
              match asKey nm with
              | .error e => .error e
              | .ok k => setItem data "COLUMNS" (.dict (dictSet [] k v))
        | .list items =>
          match buildColumns items [] with
          | .error e => .error e
          | .ok out => setItem data "COLUMNS" (.dict out)
        | .str _ => .error .typeError

/-- Python `str.lower()` (ASCII lowering, as applies to the protocol's
`SUCCESS` markers). -/
def strLower (s : String) : String := String.mk (s.data.map Char.toLower)

/-- The success classification of `_submit_request`:
`response.get('RESULT', {}).get('SUCCESS', 'false').lower() in
('true', 'success')`. -/
def classifySuccess (body : Value) : Except PyErr Bool :=
  match pyGetD body "RESULT" (.dict []) with
  | .error e => .error e
  | .ok r =>
    match pyGetD r "SUCCESS" (.str "false") with
    | .error e => .error e
    | .ok (.str t) => .ok (strLower t == "true" || strLower t == "success")
    | .ok _ => .error .attrError

/-- `exc.fault.get('detail', {}).get('error', {}).get('errorid', None)`:
extract the error identifier from a `Fault` sub-tree. -/
def errorIdOfFault (f : Value) : Except PyErr (Option Value) :=
  match pyGetD f "detail" (.dict []) with
  | .error e => .error e
  | .ok d =>
    match pyGetD d "error" (.dict []) with
    | .error e => .error e
    | .ok e2 => pyGetOpt e2 "errorid"

/-- Python `error_id == str(140)`: true exactly when the identifier is the
string `"140"` (comparison with `None` or a non-string value is `False`,
never an error). -/
def isErrorId140 : Option Value → Bool
  | some (.str s) => s == "140"
  | _ => false

/-- The mutable fields of an `API` instance: endpoint url, credentials and
the current session token (`self.sessionid`, a decoded value or `None`). -/
structure St where
  url : String
  username : Option String
  password : Option String
  sessionid : Option Value

/-- The first argument of `_submit_request`: either a nested-dict payload
or a pre-formed raw XML string (as passed by `logout`). -/
inductive Payload where
  | tree (v : Value)
  | raw (s : String)

/-- Observable actions of a run: an HTTP POST (with the url it targeted,
the `xml_dict` argument it was given, whether `ConvertDictToXml` was
applied to that argument, and the `auth` flag in force), or an invocation
of `API.login`. -/
inductive Event where
  | post (url : String) (payload : Payload) (encoded : Bool) (auth : Bool)
  | loginEvt

/-- How a call to `_submit_request` (or `login`) terminates: a normal
`(result, success)` return, a raised `ResponseException`, a raised
`AuthException`, or a raised Python runtime error.  The exception classes
live in `silverpop/exceptions.py`, which is not part of the sources here;
the `fault` payload is modelled from the spec, which states that the
`RemoteFault` error carries the full `Fault` sub-tree the call site passes
to the constructor (`ResponseException(response['Fault'])`, then read back
as `exc.fault`). -/
inductive Outcome where
  | ok (result : Value) (success : Bool)
  | fault (f : Value)
  | authExc
  | pyErr (e : PyErr)

/-- The url built by `_submit_request`:
`'%s;jsessionid=%s' % (self.url, self.sessionid) if not auth else self.url`. -/
def mkUrl (st : St) (auth : Bool) : String :=
  if auth then st.url else st.url ++ ";jsessionid=" ++ pyStr st.sessionid

/-- The final statement of `_submit_request`:
`return self._sanitize_columns_in_api_result(response['RESULT']), success`
(the subscription is evaluated first, so a body without `RESULT` raises
`KeyError`). -/
def finishReturn (body : Value) (success : Bool) (st : St) (n : Nat)
    (evs : List Event) : Outcome × St × Nat × List Event :=
  match pyItem body "RESULT" with
  | .error e => (.pyErr e, st, n, evs)
  | .ok r =>
    match sanitizeColumns r with
    | .error e => (.pyErr e, st, n, evs)
    | .ok r2 => (.ok r2 success, st, n, evs)

/-- `_submit_request` specialized at `retry=False` (so the
`error_id == str(140) and retry` condition is always false and the retry
branch is unreachable).  `ts` is the transport oracle giving the decoded
`Envelope.Body` tree of the n-th POST; the returned `Nat` is the next
POST index. -/
def submitBase (ts : Nat → Value) (st : St) (n : Nat) (payload : Payload)
    (auth rawx : Bool) : Outcome × St × Nat × List Event :=
  match classifySuccess (ts n) with
  | .error e => (.pyErr e, st, n + 1, [Event.post (mkUrl st auth) payload (!rawx) auth])
  | .ok success =>
    if success then
      finishReturn (ts n) success st (n + 1)
        [Event.post (mkUrl st auth) payload (!rawx) auth]
    else
      match pyItem (ts n) "Fault" with
      | .error e => (.pyErr e, st, n + 1, [Event.post (mkUrl st auth) payload (!rawx) auth])
      | .ok f =>
        match errorIdOfFault f with
        | .error e => (.pyErr e, st, n + 1, [Event.post (mkUrl st auth) payload (!rawx) auth])
        | .ok _ =>
          if auth then
            finishReturn (ts n) success st (n + 1)
              [Event.post (mkUrl st auth) payload (!rawx) auth]
          else
            (.fault f, st, n + 1, [Event.post (mkUrl st auth) payload (!rawx) auth])

/-- The payload built by `API.login`:
`{'Envelope': {'Body': {'Login': {'USERNAME': u, 'PASSWORD': p}}}}`. -/
def loginPayload (u p : String) : Value :=
  .dict [("Envelope", .dict [("Body", .dict [("Login",
    .dict [("USERNAME", .str u), ("PASSWORD", .str p)])])])]

/-- The tail of `API.login` applied to the outcome of its submission:
`sessionid = response.get('SESSIONID') if success else None;
if not sessionid: raise AuthException(); return sessionid`.
An exception raised by the submission itself propagates unchanged. -/
def loginDecide : Outcome → Except Outcome (Option Value)
  | .ok resp success =>
    if success then
      match pyGetOpt resp "SESSIONID" with
      | .error e => .error (.pyErr e)
      | .ok sid => if pyTruthy sid then .ok sid else .error .authExc
    else .error .authExc
  | o => .error o

/-- `API.login`: returns early (Python `None`) when username or password is
missing or empty; otherwise submits the login payload with `retry=False,
auth=True` and applies `loginDecide` to the outcome. -/
def loginFn (ts : Nat → Value) (st : St) (n : Nat) :
    Except Outcome (Option Value) × St × Nat × List Event :=
  match st.username, st.password with
  | some u, some p =>
    if u.isEmpty || p.isEmpty then
      (.ok none, st, n, [Event.loginEvt])
    else
      match submitBase ts st n (.tree (loginPayload u p)) true false with
      | (o, st1, n1, evs) => (loginDecide o, st1, n1, Event.loginEvt :: evs)
  | _, _ => (.ok none, st, n, [Event.loginEvt])

/-- The retry branch of `_submit_request` after `self.login()` has finished:
on a normal return `r`, execute `self.sessionid = r` and resubmit the
original payload with `retry=False` (and default `auth=False`,
`raw_xml=False`); on an exception, propagate it.  `acc` is the event log
accumulated so far. -/
def retryCont (ts : Nat → Value) (st1 : St) (n1 : Nat) (payload : Payload)
    (lr : Except Outcome (Option Value)) (acc : List Event) :
    Outcome × St × Nat × List Event :=
  match lr with
  | .error o => (o, st1, n1, acc)
  | .ok r =>
    match submitBase ts { st1 with sessionid := r } n1 payload false false with
    | (o, st3, n2, evs2) => (o, st3, n2, acc ++ evs2)

/-- `API._submit_request` in full.  On a classified failure whose
`Fault.detail.error.errorid` equals `"140"` with `retry` enabled, it runs
`self.sessionid = self.login()` and then resubmits the original `xml_dict`
via `self._submit_request(xml_dict, retry=False)` (all other keyword
arguments at their defaults, so `auth=False` and `raw_xml=False`). -/
def submitReq (ts : Nat → Value) (st : St) (n : Nat) (payload : Payload)
    (retry auth rawx : Bool) : Outcome × St × Nat × List Event :=
  match classifySuccess (ts n) with
  | .error e => (.pyErr e, st, n + 1, [Event.post (mkUrl st auth) payload (!rawx) auth])
  | .ok success =>
    if success then
      finishReturn (ts n) success st (n + 1)
        [Event.post (mkUrl st auth) payload (!rawx) auth]
    else
      match pyItem (ts n) "Fault" with
      | .error e => (.pyErr e, st, n + 1, [Event.post (mkUrl st auth) payload (!rawx) auth])
      | .ok f =>
        match errorIdOfFault f with
        | .error e => (.pyErr e, st, n + 1, [Event.post (mkUrl st auth) payload (!rawx) auth])
        | .ok eid =>
          if isErrorId140 eid && retry then
            match loginFn ts st (n + 1) with
            | (lr, st1, n1, levs) =>
              retryCont ts st1 n1 payload lr
                (Event.post (mkUrl st auth) payload (!rawx) auth :: levs)
          else if auth then
            finishReturn (ts n) success st (n + 1)
              [Event.post (mkUrl st auth) payload (!rawx) auth]
          else
            (.fault f, st, n + 1, [Event.post (mkUrl st auth) payload (!rawx) auth])

/-- The assignment `self.sessionid = self.login()` at construction: store
the returned value, or propagate an exception raised by `login`. -/
def apiInitCont (lr : Except Outcome (Option Value)) (st1 : St) :
    Except Outcome St :=
  match lr with
  | .ok rv => .ok { st1 with sessionid := rv }
  | .error o => .error o

/-- `API.__init__`: set url and credentials, then
`self.sessionid = sessionid if sessionid else self.login()` (note Python
truthiness: an empty-string session id also triggers a login). -/
def apiInit (ts : Nat → Value) (url : String) (username password : Option String)
    (sessionid0 : Option Value) : Except Outcome St × Nat × List Event :=
  if pyTruthy sessionid0 then
    (.ok ⟨url, username, password, sessionid0⟩, 0, [])
  else
    match loginFn ts ⟨url, username, password, sessionid0⟩ 0 with
    | (lr, st1, n1, evs) => (apiInitCont lr st1, n1, evs)

/-- Number of `login` invocations recorded in an event log. -/
def countLogin : List Event → Nat
  | [] => 0
  | .loginEvt :: rest => countLogin rest + 1
  | .post _ _ _ _ :: rest => countLogin rest

/-- Number of HTTP POSTs recorded in an event log. -/
def countPosts : List Event → Nat
  | [] => 0
  | .loginEvt :: rest => countPosts rest
  | .post _ _ _ _ :: rest => countPosts rest + 1

/-- The canonical decoded shape of one `COLUMN` element: a
`{NAME, VALUE}` mapping. -/
def columnEntry (q : String × Value) : Value :=
  .dict [("NAME", .str q.1), ("VALUE", q.2)]

/-- The value found at the `RESULT.SUCCESS` path of a decoded body tree,
when that path exists.  This is the spec's reading of the classification
input, written from the spec's words for comparison with the code's
`classifySuccess`. -/
def valueAtResultSuccess : Value → Option Value
  | .dict kvs =>
    match kvs.lookup "RESULT" with
    | some (.dict rkvs) => rkvs.lookup "SUCCESS"
    | _ => none
  | _ => none

/-- Spec-side success classification: the value at `RESULT.SUCCESS` — taken
to be the literal string `"false"` when the path is absent —
case-insensitively equals `"true"` or `"success"` (a non-string value at
the path equals neither). -/
def specSuccess (body : Value) : Bool :=
  match (valueAtResultSuccess body).getD (.str "false") with
  | .str s => strLower s == "true" || strLower s == "success"
  | _ => false

/-! ### Concrete scenario values used by witnesses and counterexamples -/

/-- A client state with usable credentials and a current token `"S"`. -/
def exSt : St := ⟨"U", some "u", some "p", some (.str "S")⟩

/-- A client state with no credentials and a supplied token `"S"`. -/
def exStNoCreds : St := ⟨"U", none, none, some (.str "S")⟩

/-- The state produced by construction with credentials against a login
response carrying `SESSIONID = "abc123"`. -/
def exStInit : St := ⟨"U", some "u", some "p", some (.str "abc123")⟩

/-- A `Fault` sub-tree with `detail.error.errorid = "140"`. -/
def fault140sub : Value :=
  .dict [("detail", .dict [("error", .dict [("errorid", .str "140")])])]

/-- A `Fault` sub-tree with `detail.error.errorid = "100"`. -/
def fault100sub : Value :=
  .dict [("detail", .dict [("error", .dict [("errorid", .str "100")])])]

/-- A failed body: `RESULT.SUCCESS = "FALSE"` with a 140 fault. -/
def fault140body : Value :=
  .dict [("RESULT", .dict [("SUCCESS", .str "FALSE")]), ("Fault", fault140sub)]

/-- A failed body carrying only a 100 fault and no `RESULT`. -/
def fault100body : Value := .dict [("Fault", fault100sub)]

/-- A failed body with both a `RESULT` and a 100 fault. -/
def authFailBody : Value :=
  .dict [("RESULT", .dict [("SUCCESS", .str "false")]), ("Fault", fault100sub)]

/-- A successful login body with `SESSIONID = "new"`. -/
def exLoginBody : Value :=
  .dict [("RESULT", .dict [("SUCCESS", .str "true"), ("SESSIONID", .str "new")])]

/-- A minimal successful body. -/
def exOkBody : Value := .dict [("RESULT", .dict [("SUCCESS", .str "true")])]

/-- The spec's login-scenario body: success with `SESSIONID = "abc123"`. -/
def abcBody : Value :=
  .dict [("RESULT", .dict [("SUCCESS", .str "true"), ("SESSIONID", .str "abc123")])]

/-- A typical endpoint-method payload. -/
def exPayload : Payload :=
  .tree (.dict [("Envelope", .dict [("Body",
    .dict [("GetJobStatus", .dict [("JOB_ID", .str "1")])])])])

/-- The pre-formed raw XML string submitted by `logout`. -/
def logoutXml : String := "<Envelope><Body><Logout/></Body></Envelope>"

/-- Transport oracle: a 140 fault, then a successful login, then success. -/
def exTs : Nat → Value := fun n =>
  if n == 0 then fault140body else if n == 1 then exLoginBody else exOkBody

/-- Transport oracle: a 140 fault, then success. -/
def exTsNoCreds : Nat → Value := fun n =>
  if n == 0 then fault140body else exOkBody

/-- A result whose single column is named `COLUMN` itself. -/
def colTrap : Value :=
  .dict [("COLUMNS", .dict [("COLUMN", columnEntry ("COLUMN", .str "v"))])]

/-- The normalization of `colTrap`: flat mapping `COLUMN → v`. -/
def colTrapOnce : Value := .dict [("COLUMNS", .dict [("COLUMN", .str "v")])]

/-! ### Basic lemmas about the submission pipeline -/

theorem finishReturn_state (body : Value) (success : Bool) (st : St) (n : Nat)
    (evs : List Event) : (finishReturn body success st n evs).2.1 = st := by
  unfold finishReturn
  split
  · rfl
  · split <;> rfl

theorem finishReturn_next (body : Value) (success : Bool) (st : St) (n : Nat)
    (evs : List Event) : (finishReturn body success st n evs).2.2.1 = n := by
  unfold finishReturn
  split
  · rfl
  · split <;> rfl

theorem finishReturn_events (body : Value) (success : Bool) (st : St) (n : Nat)
    (evs : List Event) : (finishReturn body success st n evs).2.2.2 = evs := by
  unfold finishReturn
  split
  · rfl
  · split <;> rfl

theorem submitBase_state (ts : Nat → Value) (st : St) (n : Nat) (p : Payload)
    (a r : Bool) : (submitBase ts st n p a r).2.1 = st := by
  unfold submitBase
  repeat' split
  all_goals first
    | rfl
    | apply finishReturn_state

theorem submitBase_next (ts : Nat → Value) (st : St) (n : Nat) (p : Payload)
    (a r : Bool) : (submitBase ts st n p a r).2.2.1 = n + 1 := by
  unfold submitBase
  repeat' split
  all_goals first
    | rfl
    | apply finishReturn_next

theorem submitBase_events (ts : Nat → Value) (st : St) (n : Nat) (p : Payload)
    (a r : Bool) :
    (submitBase ts st n p a r).2.2.2 = [Event.post (mkUrl st a) p (!r) a] := by
  unfold submitBase
  repeat' split
  all_goals first
    | rfl
    | apply finishReturn_events

/-- With `retry=False`, `_submit_request` is exactly its retry-free
specialization `submitBase`. -/
theorem submitReq_noretry (ts : Nat → Value) (st : St) (n : Nat) (p : Payload)
    (a r : Bool) : submitReq ts st n p false a r = submitBase ts st n p a r := by
  unfold submitReq submitBase
  repeat' split
  all_goals simp_all

theorem countLogin_append (a b : List Event) :
    countLogin (a ++ b) = countLogin a + countLogin b := by
  induction a with
  | nil => simp [countLogin]
  | cons e rest ih =>
    cases e
    all_goals simp [countLogin, ih]
    all_goals omega

theorem countPosts_append (a b : List Event) :
    countPosts (a ++ b) = countPosts a + countPosts b := by
  induction a with
  | nil => simp [countPosts]
  | cons e rest ih =>
    cases e
    all_goals simp [countPosts, ih]
    all_goals omega

theorem loginFn_state (ts : Nat → Value) (st : St) (n : Nat) :
    (loginFn ts st n).2.1 = st := by
  unfold loginFn
  split
  all_goals try rfl
  rename_i x1 x2 u p hu hp
  split
  · rfl
  · have key := submitBase_state ts st n (Payload.tree (loginPayload u p)) true false
    revert key
    generalize submitBase ts st n (Payload.tree (loginPayload u p)) true false = q
    rcases q with ⟨o, st1, n1, evs⟩
    intro key
    simpa using key

theorem loginFn_countLogin (ts : Nat → Value) (st : St) (n : Nat) :
    countLogin (loginFn ts st n).2.2.2 = 1 := by
  unfold loginFn
  split
  all_goals try (simp [countLogin])
  rename_i x1 x2 u p hu hp
  split
  · simp [countLogin]
  · have key := submitBase_events ts st n (Payload.tree (loginPayload u p)) true false
    revert key
    generalize submitBase ts st n (Payload.tree (loginPayload u p)) true false = q
    rcases q with ⟨o, st1, n1, evs⟩
    intro key
    simp only at key
    subst key
    simp [countLogin]

/-- With usable credentials, `login` logs its invocation followed by exactly
one authenticated POST of the login payload at the bare endpoint url. -/
theorem loginFn_events_creds (ts : Nat → Value) (st : St) (n : Nat)
    (u p : String) (hu : st.username = some u) (hp : st.password = some p)
    (hue : u.isEmpty = false) (hpe : p.isEmpty = false) :
    (loginFn ts st n).2.2.2 =
      [Event.loginEvt, Event.post st.url (.tree (loginPayload u p)) true true] := by
  unfold loginFn
  split
  · rename_i x1 x2 u2 p2 hu2 hp2
    rw [hu] at hu2
    rw [hp] at hp2
    injection hu2 with hu3
    injection hp2 with hp3
    subst hu3
    subst hp3
    split
    · simp_all
    · have key := submitBase_events ts st n (Payload.tree (loginPayload u p)) true false
      revert key
      generalize submitBase ts st n (Payload.tree (loginPayload u p)) true false = q
      rcases q with ⟨o, st1, n1, evs⟩
      intro key
      simp only at key
      subst key
      simp [mkUrl]
  · simp_all

/-- Unfolding of `_submit_request` under a classified failure with
`errorid = "140"` and `retry=True`, when the inner `login` call returns
normally: one `login` invocation, the token overwritten with its result,
and exactly one resubmission of the original payload with `retry=False`,
whose outcome is the outcome of the whole call. -/
theorem submitReq_retry_unfold (ts : Nat → Value) (st : St) (n : Nat)
    (p : Payload) (auth rawx : Bool) (f : Value) (r : Option Value)
    (st1 : St) (n1 : Nat) (levs : List Event)
    (hfail : classifySuccess (ts n) = .ok false)
    (hfault : pyItem (ts n) "Fault" = .ok f)
    (heid : errorIdOfFault f = .ok (some (.str "140")))
    (hlog : loginFn ts st (n + 1) = (.ok r, st1, n1, levs)) :
    submitReq ts st n p true auth rawx =
      ((submitBase ts { st1 with sessionid := r } n1 p false false).1,
       { st1 with sessionid := r }, n1 + 1,
       Event.post (mkUrl st auth) p (!rawx) auth ::
         (levs ++ [Event.post (mkUrl { st1 with sessionid := r } false) p true false])) := by
  have ks := submitBase_state ts { st1 with sessionid := r } n1 p false false
  have kn := submitBase_next ts { st1 with sessionid := r } n1 p false false
  have ke := submitBase_events ts { st1 with sessionid := r } n1 p false false
  unfold submitReq
  simp only [hfail, hfault, heid, hlog,
    show isErrorId140 (some (Value.str "140")) = true from rfl,
    Bool.true_and, Bool.false_eq_true, if_false, if_true]
  simp only [retryCont]
  revert ks kn ke
  generalize submitBase ts { st1 with sessionid := r } n1 p false false = q
  rcases q with ⟨o, st3, n2, evs2⟩
  intro ks kn ke
  simp only at ks kn ke
  subst ks
  subst kn
  subst ke
  simp

theorem retryCont_events (ts : Nat → Value) (st1 : St) (n1 : Nat) (p : Payload)
    (lr : Except Outcome (Option Value)) (acc : List Event) :
    ∃ rest, (retryCont ts st1 n1 p lr acc).2.2.2 = acc ++ rest := by
  cases lr with
  | error o => exact ⟨[], by simp [retryCont]⟩
  | ok r =>
    exact ⟨(submitBase ts { st1 with sessionid := r } n1 p false false).2.2.2,
      by simp [retryCont]⟩

theorem retryCont_events_head (ts : Nat → Value) (st1 : St) (n1 : Nat)
    (p : Payload) (lr : Except Outcome (Option Value)) (e : Event)
    (acc : List Event) :
    (retryCont ts st1 n1 p lr (e :: acc)).2.2.2.head? = some e := by
  obtain ⟨rest, hr⟩ := retryCont_events ts st1 n1 p lr (e :: acc)
  rw [hr]
  rfl

/-- Every call to `_submit_request` begins with the POST of its payload at
the url built from the current state. -/
theorem submitReq_events_head (ts : Nat → Value) (st : St) (n : Nat)
    (p : Payload) (retry auth rawx : Bool) :
    (submitReq ts st n p retry auth rawx).2.2.2.head? =
      some (.post (mkUrl st auth) p (!rawx) auth) := by
  unfold submitReq
  repeat' split
  all_goals first
    | rfl
    | (rw [finishReturn_events]; rfl)
    | (apply retryCont_events_head)

/-! ### Claim theorems -/

/-- C10: on a classified failure whose decoded `Envelope.Body` has no
`Fault` key, `_submit_request` raises a bare `KeyError('Fault')`; and when
the returning path is reached (here: a suppressed auth failure) with no
`RESULT` key in the body, it raises a bare `KeyError('RESULT')` — neither
is an error of the specified taxonomy. -/
theorem submit_bare_lookup_errors :
    (submitReq (fun _ => .dict []) exSt 0 exPayload true false false).1 =
      .pyErr (.keyError "Fault") ∧
    (submitReq (fun _ => fault100body) exSt 0 exPayload false true false).1 =
      .pyErr (.keyError "RESULT") :=
  ⟨rfl, rfl⟩

/-- C3: `_submit_request` classifies a decoded body tree as a success
exactly when the value at `RESULT.SUCCESS` — taken to be the literal
string `"false"` when that path is absent — case-insensitively equals
`"true"` or `"success"`. -/
theorem classification_matches_spec (body : Value) :
    classifySuccess body = .ok true ↔ specSuccess body = true := by
  cases body with
  | str s =>
    simp [classifySuccess, pyGetD, specSuccess, valueAtResultSuccess,
      show strLower "false" = "false" from rfl]
  | list vs =>
    simp [classifySuccess, pyGetD, specSuccess, valueAtResultSuccess,
      show strLower "false" = "false" from rfl]
  | dict kvs =>
    cases h : kvs.lookup "RESULT" with
    | none =>
      simp [classifySuccess, pyGetD, specSuccess, valueAtResultSuccess, h,
        show strLower "false" = "false" from rfl]
    | some v =>
      cases v with
      | str s =>
        simp [classifySuccess, pyGetD, specSuccess, valueAtResultSuccess, h,
          show strLower "false" = "false" from rfl]
      | list vs =>
        simp [classifySuccess, pyGetD, specSuccess, valueAtResultSuccess, h,
          show strLower "false" = "false" from rfl]
      | dict rkvs =>
        cases h2 : rkvs.lookup "SUCCESS" with
        | none =>
          simp [classifySuccess, pyGetD, specSuccess, valueAtResultSuccess, h, h2,
            show strLower "false" = "false" from rfl]
        | some w =>
          cases w with
          | str t =>
            simp [classifySuccess, pyGetD, specSuccess, valueAtResultSuccess, h, h2]
          | dict wkvs =>
            simp [classifySuccess, pyGetD, specSuccess, valueAtResultSuccess, h, h2]
          | list wvs =>
            simp [classifySuccess, pyGetD, specSuccess, valueAtResultSuccess, h, h2]

/-- C1: when a payload is submitted with `retry=True`, the first response
classifies as a failure and its `Fault.detail.error.errorid` is `"140"`,
and the `login()` call returns normally with `r`, then `_submit_request`
performs exactly one `login` invocation, stores `r` as the new session
token, resubmits the original payload exactly once with `retry=False`
(the whole call returning that second attempt's outcome), and the second
attempt consists of a single POST — so a 140 fault there triggers no
further login or resubmission. -/
theorem submit_140_retry_behaviour (ts : Nat → Value) (st : St) (n : Nat)
    (p : Payload) (auth rawx : Bool) (f : Value) (r : Option Value)
    (st1 : St) (n1 : Nat) (levs : List Event)
    (hfail : classifySuccess (ts n) = .ok false)
    (hfault : pyItem (ts n) "Fault" = .ok f)
    (heid : errorIdOfFault f = .ok (some (.str "140")))
    (hlog : loginFn ts st (n + 1) = (.ok r, st1, n1, levs)) :
    submitReq ts st n p true auth rawx =
      ((submitReq ts { st with sessionid := r } n1 p false false false).1,
       { st with sessionid := r }, n1 + 1,
       Event.post (mkUrl st auth) p (!rawx) auth ::
         (levs ++ [Event.post (mkUrl { st with sessionid := r } false) p true false])) ∧
    countLogin (submitReq ts st n p true auth rawx).2.2.2 = 1 ∧
    countPosts (submitReq ts st n p true auth rawx).2.2.2 = countPosts levs + 2 := by
  have hst1 : st1 = st := by
    have h := loginFn_state ts st (n + 1)
    rw [hlog] at h
    exact h
  have main := submitReq_retry_unfold ts st n p auth rawx f r st1 n1 levs
    hfail hfault heid hlog
  rw [hst1] at main
  have hlev : countLogin levs = 1 := by
    have h := loginFn_countLogin ts st (n + 1)
    rw [hlog] at h
    exact h
  refine ⟨?_, ?_, ?_⟩
  · rw [main, submitReq_noretry]
  · rw [main]
    simp [countLogin, countLogin_append, hlev]
  · rw [main]
    simp [countPosts, countPosts_append]

/-- C1 witness: a concrete run hitting a 140 fault, re-authenticating once
(obtaining token `"new"`) and resubmitting once. -/
theorem submit_140_retry_behaviour_witness :
    countLogin (submitReq exTs exSt 0 exPayload true false false).2.2.2 = 1 ∧
    (submitReq exTs exSt 0 exPayload true false false).2.1 =
      { exSt with sessionid := some (.str "new") } :=
  have h := submit_140_retry_behaviour exTs exSt 0 exPayload false false
    fault140sub (some (.str "new")) exSt 2
    [Event.loginEvt, Event.post "U" (.tree (loginPayload "u" "p")) true true]
    rfl rfl rfl rfl
  ⟨h.2.1, by rw [h.1]⟩

/-- C4: a submission with `auth=False` whose response classifies as a
failure carrying a `Fault` whose errorid is not `"140"` (or with
`retry=False`) raises `ResponseException` with the full `Fault` sub-tree
after its single POST, with zero `login` invocations. -/
theorem submit_nonretryable_fault_raises (ts : Nat → Value) (st : St)
    (n : Nat) (p : Payload) (retry rawx : Bool) (f : Value)
    (eid : Option Value)
    (hfail : classifySuccess (ts n) = .ok false)
    (hfault : pyItem (ts n) "Fault" = .ok f)
    (heid : errorIdOfFault f = .ok eid)
    (hnot : isErrorId140 eid = false ∨ retry = false) :
    submitReq ts st n p retry false rawx =
      (.fault f, st, n + 1, [Event.post (mkUrl st false) p (!rawx) false]) ∧
    countLogin (submitReq ts st n p retry false rawx).2.2.2 = 0 := by
  have hcond : (isErrorId140 eid && retry) = false := by
    rcases hnot with h | h <;> simp [h]
  unfold submitReq
  simp [hfail, hfault, heid, hcond, countLogin]

/-- C4 witness: a 100 fault on a non-auth request surfaces as the fault
outcome at once, with no login exchange. -/
theorem submit_nonretryable_fault_raises_witness :
    submitReq (fun _ => fault100body) exSt 0 exPayload true false false =
      (.fault fault100sub, exSt, 1,
       [Event.post (mkUrl exSt false) exPayload true false]) ∧
    countLogin (submitReq (fun _ => fault100body) exSt 0 exPayload true false false).2.2.2 = 0 :=
  submit_nonretryable_fault_raises (fun _ => fault100body) exSt 0 exPayload
    true false fault100sub (some (.str "100")) rfl rfl rfl (Or.inl rfl)

/-- C9: when a raw pre-formed XML string is submitted with `raw_xml=True`
and `retry=True` and the first response is a 140-classified failure, the
resubmission passes the same string back through `_submit_request` without
`raw_xml`, so the second POST has the dict-to-XML encoder applied to the
raw string (`encoded = true`) while the first did not. -/
theorem raw_xml_bypass_not_preserved (ts : Nat → Value) (st : St) (n : Nat)
    (s : String) (auth : Bool) (f : Value) (r : Option Value)
    (st1 : St) (n1 : Nat) (levs : List Event)
    (hfail : classifySuccess (ts n) = .ok false)
    (hfault : pyItem (ts n) "Fault" = .ok f)
    (heid : errorIdOfFault f = .ok (some (.str "140")))
    (hlog : loginFn ts st (n + 1) = (.ok r, st1, n1, levs)) :
    (submitReq ts st n (.raw s) true auth true).2.2.2 =
      Event.post (mkUrl st auth) (.raw s) false auth ::
        (levs ++
          [Event.post (mkUrl { st1 with sessionid := r } false) (.raw s) true false]) := by
  have main := submitReq_retry_unfold ts st n (.raw s) auth true f r st1 n1 levs
    hfail hfault heid hlog
  rw [main]
  rfl

/-- C9 witness: `logout`'s raw XML string is re-encoded on the retry POST. -/
theorem raw_xml_bypass_not_preserved_witness :
    (submitReq exTs exSt 0 (.raw logoutXml) true false true).2.2.2 =
      Event.post "U;jsessionid=S" (.raw logoutXml) false false ::
        ([Event.loginEvt, Event.post "U" (.tree (loginPayload "u" "p")) true true] ++
          [Event.post "U;jsessionid=new" (.raw logoutXml) true false]) :=
  raw_xml_bypass_not_preserved exTs exSt 0 logoutXml false
    fault140sub (some (.str "new")) exSt 2
    [Event.loginEvt, Event.post "U" (.tree (loginPayload "u" "p")) true true]
    rfl rfl rfl rfl


/-- C8: every submission POSTs to the configured endpoint url with the
current session token appended as `";jsessionid=<token>"`, except that an
auth request targets the bare endpoint url. -/
theorem submit_url_building (ts : Nat → Value) (st : St) (n : Nat)
    (p : Payload) (retry auth rawx : Bool) (tok : String)
    (htok : st.sessionid = some (.str tok)) :
    (submitReq ts st n p retry auth rawx).2.2.2.head? =
      some (.post (if auth then st.url else st.url ++ ";jsessionid=" ++ tok)
        p (!rawx) auth) := by
  rw [submitReq_events_head]
  simp [mkUrl, htok, pyStr]

/-- C8 witness: with token `"S"`, the first POST of a non-auth submission
targets `"U;jsessionid=S"`. -/
theorem submit_url_building_witness :
    (submitReq exTsNoCreds exSt 0 exPayload false false false).2.2.2.head? =
      some (.post (if false then exSt.url else exSt.url ++ ";jsessionid=" ++ "S")
        exPayload (!false) false) :=
  submit_url_building exTsNoCreds exSt 0 exPayload false false false "S" rfl

/-- C2 counterexample: with `auth=True`, `retry=False` and a failed body
`{RESULT: {SUCCESS: "false"}, Fault: ...}`, the suppression path returns
the post-processed `RESULT` sub-tree with `success = false` — not the raw
failed response body tree, which differs from it. -/
theorem auth_suppression_counterexample :
    (submitReq (fun _ => authFailBody) exSt 0 exPayload false true false).1 =
      .ok (.dict [("SUCCESS", .str "false")]) false ∧
    Value.dict [("SUCCESS", .str "false")] ≠ authFailBody := by
  refine ⟨rfl, ?_⟩
  intro h
  have hlen := congrArg pyLen h
  simp [pyLen, authFailBody] at hlen

/-- C2 amended: a submission with `auth=True` whose response classifies as
a failure with an errorid other than `"140"` (or `retry=False`) suppresses
the error and returns the post-processed `RESULT` sub-tree of the failed
body together with `success = false`, instead of raising — provided the
body has a `RESULT` key and post-processing succeeds (otherwise the bare
`KeyError` of C10 is raised instead of a return). -/
theorem submit_auth_suppression (ts : Nat → Value) (st : St) (n : Nat)
    (p : Payload) (retry rawx : Bool) (f : Value) (eid : Option Value)
    (rr rs : Value)
    (hfail : classifySuccess (ts n) = .ok false)
    (hfault : pyItem (ts n) "Fault" = .ok f)
    (heid : errorIdOfFault f = .ok eid)
    (hnot : isErrorId140 eid = false ∨ retry = false)
    (hres : pyItem (ts n) "RESULT" = .ok rr)
    (hsan : sanitizeColumns rr = .ok rs) :
    submitReq ts st n p retry true rawx =
      (.ok rs false, st, n + 1, [Event.post st.url p (!rawx) true]) := by
  have hcond : (isErrorId140 eid && retry) = false := by
    rcases hnot with h | h <;> simp [h]
  unfold submitReq finishReturn
  simp [hfail, hfault, heid, hcond, hres, hsan, mkUrl]

/-- C2 witness: the concrete suppressed auth failure of the counterexample
run, showing the returned tree and `success = false`. -/
theorem submit_auth_suppression_witness :
    submitReq (fun _ => authFailBody) exSt 0 exPayload false true false =
      (.ok (.dict [("SUCCESS", .str "false")]) false, exSt, 1,
       [Event.post exSt.url exPayload true true]) :=
  submit_auth_suppression (fun _ => authFailBody) exSt 0 exPayload false false
    fault100sub (some (.str "100")) (.dict [("SUCCESS", .str "false")])
    (.dict [("SUCCESS", .str "false")]) rfl rfl rfl (Or.inr rfl) rfl rfl

/-- With usable credentials, `login` is its submission followed by the
`loginDecide` analysis. -/
theorem loginFn_creds_unfold (ts : Nat → Value) (st : St) (n : Nat)
    (u p : String) (hu : st.username = some u) (hp : st.password = some p)
    (hue : u.isEmpty = false) (hpe : p.isEmpty = false) :
    loginFn ts st n =
      (match submitBase ts st n (.tree (loginPayload u p)) true false with
       | (o, st1, n1, evs) => (loginDecide o, st1, n1, Event.loginEvt :: evs)) := by
  unfold loginFn
  split
  · rename_i x1 x2 u2 p2 hu2 hp2
    rw [hu] at hu2
    rw [hp] at hp2
    injection hu2 with hu3
    injection hp2 with hp3
    subst hu3
    subst hp3
    split
    · simp_all
    · rfl
  · simp_all

/-- C5: with usable credentials, the login exchange submits the
`{Envelope: {Body: {Login: {USERNAME, PASSWORD}}}}` payload with
`auth=True` and `retry=False` (one POST at the bare endpoint url); if that
submission returns a failure, or a success whose tree has no `SESSIONID`,
the exchange fails with `AuthException`; and a success whose tree carries
a truthy `SESSIONID` value yields exactly that value as the new token. -/
theorem login_exchange_contract (ts : Nat → Value) (st : St) (n : Nat)
    (u p : String) (hu : st.username = some u) (hp : st.password = some p)
    (hue : u.isEmpty = false) (hpe : p.isEmpty = false) :
    (loginFn ts st n).2.2.2 =
      [Event.loginEvt, Event.post st.url (.tree (loginPayload u p)) true true] ∧
    (∀ resp st1 n1 evs,
      submitBase ts st n (.tree (loginPayload u p)) true false =
        (.ok resp false, st1, n1, evs) →
      (loginFn ts st n).1 = .error .authExc) ∧
    (∀ resp st1 n1 evs,
      submitBase ts st n (.tree (loginPayload u p)) true false =
        (.ok resp true, st1, n1, evs) →
      pyGetOpt resp "SESSIONID" = .ok none →
      (loginFn ts st n).1 = .error .authExc) ∧
    (∀ resp st1 n1 evs v,
      submitBase ts st n (.tree (loginPayload u p)) true false =
        (.ok resp true, st1, n1, evs) →
      pyGetOpt resp "SESSIONID" = .ok (some v) →
      pyTruthy (some v) = true →
      (loginFn ts st n).1 = .ok (some v)) := by
  refine ⟨loginFn_events_creds ts st n u p hu hp hue hpe, ?_, ?_, ?_⟩
  · intro resp st1 n1 evs hsb
    rw [loginFn_creds_unfold ts st n u p hu hp hue hpe, hsb]
    simp [loginDecide]
  · intro resp st1 n1 evs hsb hsid
    rw [loginFn_creds_unfold ts st n u p hu hp hue hpe, hsb]
    simp [loginDecide, hsid, pyTruthy]
  · intro resp st1 n1 evs v hsb hsid htr
    rw [loginFn_creds_unfold ts st n u p hu hp hue hpe, hsb]
    simp [loginDecide, hsid, htr]

/-- C5 witness: the spec scenario — a success whose `RESULT` carries
`SESSIONID = "abc123"` yields the token `"abc123"`. -/
theorem login_exchange_contract_witness :
    (loginFn (fun _ => abcBody) exSt 0).1 = .ok (some (.str "abc123")) :=
  (login_exchange_contract (fun _ => abcBody) exSt 0 "u" "p" rfl rfl rfl rfl).2.2.2
    (.dict [("SUCCESS", .str "true"), ("SESSIONID", .str "abc123")]) exSt 1
    [Event.post "U" (.tree (loginPayload "u" "p")) true true] (.str "abc123")
    rfl rfl rfl

/-- C6 counterexample: on an instance with a supplied token `"S"` and no
credentials, a 140 fault with retry overwrites the token with `None`
although no login exchange is performed at all (the event log shows the
`login` invocation returning early with no authenticated POST) — so the
token is written by something other than a successful login exchange. -/
theorem session_token_counterexample :
    exStNoCreds.sessionid = some (.str "S") ∧
    (submitReq exTsNoCreds exStNoCreds 0 exPayload true false false).2.1.sessionid =
      none ∧
    (submitReq exTsNoCreds exStNoCreds 0 exPayload true false false).2.2.2 =
      [Event.post "U;jsessionid=S" exPayload true false, Event.loginEvt,
       Event.post "U;jsessionid=None" exPayload true false] :=
  ⟨rfl, rfl, rfl⟩

/-- C6 amended: the session token field is written exactly when the login
routine returns normally — at construction, or during an errorid-140 retry
— with whatever it returns (the extracted token when an exchange succeeds;
Python `None` when credentials are unusable);  no other operation of the
client changes any state field.  Concretely: `login` never mutates state;
`_submit_request` either leaves the state unchanged or, in the 140-retry
branch, sets the token to exactly the value `login` returned; and
construction stores the supplied truthy token or `login`'s return. -/
theorem session_token_discipline (ts : Nat → Value) (st : St) (n : Nat)
    (p : Payload) (retry auth rawx : Bool) (url : String)
    (un pw : Option String) (sid0 : Option Value) :
    (loginFn ts st n).2.1 = st ∧
    ((submitReq ts st n p retry auth rawx).2.1 = st ∨
      (retry = true ∧ ∃ r st1 n1 levs,
        loginFn ts st (n + 1) = (.ok r, st1, n1, levs) ∧
        (submitReq ts st n p retry auth rawx).2.1 = { st with sessionid := r })) ∧
    (∀ stI nI evsI, apiInit ts url un pw sid0 = (.ok stI, nI, evsI) →
      stI.url = url ∧ stI.username = un ∧ stI.password = pw ∧
      (stI.sessionid = sid0 ∨
        (loginFn ts ⟨url, un, pw, sid0⟩ 0).1 = .ok stI.sessionid)) := by
  refine ⟨loginFn_state ts st n, ?_, ?_⟩
  · unfold submitReq
    split
    · left; rfl
    · split
      · left; apply finishReturn_state
      · split
        · left; rfl
        · split
          · left; rfl
          · split
            · rename_i hcond
              have hretry : retry = true := by
                rcases retry with _ | _
                · simp at hcond
                · rfl
              have hst1 := loginFn_state ts st (n + 1)
              revert hst1
              generalize hq : loginFn ts st (n + 1) = q
              rcases q with ⟨lr, st1, n1, levs⟩
              intro hst1
              simp only at hst1
              rw [hst1] at hq ⊢
              cases lr with
              | error o => left; simp [retryCont]
              | ok r =>
                right
                exact ⟨hretry, r, st, n1, levs, rfl,
                  by simp [retryCont, submitBase_state]⟩
            · split
              · left; apply finishReturn_state
              · left; rfl
  · intro stI nI evsI hinit
    unfold apiInit at hinit
    split at hinit
    · simp only [Prod.mk.injEq] at hinit
      obtain ⟨h1, h2, h3⟩ := hinit
      injection h1 with h1
      subst h1
      exact ⟨rfl, rfl, rfl, Or.inl rfl⟩
    · revert hinit
      have hst1 := loginFn_state ts ⟨url, un, pw, sid0⟩ 0
      revert hst1
      generalize hlf : loginFn ts ⟨url, un, pw, sid0⟩ 0 = q
      rcases q with ⟨lr, st1, n1, evs⟩
      intro hst1 hinit
      simp only at hst1
      subst hst1
      cases lr with
      | error o => simp [apiInitCont] at hinit
      | ok rv =>
        simp only [apiInitCont, Prod.mk.injEq] at hinit
        obtain ⟨h1, h2, h3⟩ := hinit
        injection h1 with h1
        subst h1
        exact ⟨rfl, rfl, rfl, Or.inr rfl⟩

/-- C6 witness: construction with credentials against the `abc123` login
response stores exactly the token `login` returned. -/
theorem session_token_discipline_witness :
    exStInit.url = "U" ∧ exStInit.username = some "u" ∧
    exStInit.password = some "p" ∧
    (exStInit.sessionid = none ∨
      (loginFn (fun _ => abcBody) ⟨"U", some "u", some "p", none⟩ 0).1 =
        .ok exStInit.sessionid) :=
  (session_token_discipline (fun _ => abcBody) ⟨"U", some "u", some "p", none⟩ 0
    exPayload false false false "U" (some "u") (some "p") none).2.2 exStInit 1
    [Event.loginEvt, Event.post "U" (.tree (loginPayload "u" "p")) true true]
    rfl

theorem dictSet_lookup_self (kvs : List (String × Value)) (k : String)
    (v : Value) : (dictSet kvs k v).lookup k = some v := by
  induction kvs with
  | nil => simp [dictSet, List.lookup]
  | cons kv rest ih =>
    rcases kv with ⟨k1, v1⟩
    by_cases h : k1 = k
    · subst h
      simp [dictSet, List.lookup]
    · have hb1 : (k1 == k) = false := by
        simp
        exact h
      have hb2 : (k == k1) = false := by
        simp
        exact fun hh => h hh.symm
      simp [dictSet, List.lookup, hb1, hb2, ih]

theorem lookup_eq_none_of_not_mem (l : List (String × Value)) (k : String)
    (h : k ∉ l.map Prod.fst) : l.lookup k = none := by
  induction l with
  | nil => rfl
  | cons kv rest ih =>
    rcases kv with ⟨k1, v1⟩
    simp at h
    have hb : (k == k1) = false := by
      simp
      exact h.1
    have hrest : k ∉ List.map Prod.fst rest := by simpa using h.2
    simp [List.lookup, hb, ih hrest]

theorem dictSet_append_of_not_mem (out : List (String × Value)) (k : String)
    (v : Value) (h : k ∉ out.map Prod.fst) :
    dictSet out k v = out ++ [(k, v)] := by
  induction out with
  | nil => rfl
  | cons kv rest ih =>
    rcases kv with ⟨k1, v1⟩
    simp at h
    have hb : (k1 == k) = false := by
      simp
      exact fun hh => h.1 hh.symm
    have hrest : k ∉ List.map Prod.fst rest := by simpa using h.2
    simp [dictSet, hb, ih hrest]

/-- Running the normalization loop over canonically-shaped column entries
with pairwise distinct fresh names appends the `(NAME, VALUE)` pairs to
the accumulator in order. -/
theorem buildColumns_map (cols : List (String × Value)) :
    ∀ out : List (String × Value),
      (out.map Prod.fst ++ cols.map Prod.fst).Nodup →
      buildColumns (cols.map columnEntry) out = .ok (out ++ cols) := by
  induction cols with
  | nil =>
    intro out h
    simp [buildColumns]
  | cons c rest ih =>
    rcases c with ⟨nm, v⟩
    intro out h
    have hparts := List.nodup_append.mp (by simpa using h)
    have hnotmem : nm ∉ out.map Prod.fst := by
      intro hmem
      exact hparts.2.2 hmem (by simp)
    have hnd : ((out ++ [(nm, v)]).map Prod.fst ++ rest.map Prod.fst).Nodup := by
      simpa [List.append_assoc] using h
    have hv : pyItem (columnEntry (nm, v)) "VALUE" = .ok v := by
      simp [pyItem, columnEntry, List.lookup,
        show ("VALUE" == "NAME") = false from rfl,
        show ("VALUE" == "VALUE") = true from rfl]
    have hn : pyItem (columnEntry (nm, v)) "NAME" = .ok (.str nm) := by
      simp [pyItem, columnEntry, List.lookup,
        show ("NAME" == "NAME") = true from rfl]
    calc buildColumns ((columnEntry (nm, v)) :: rest.map columnEntry) out
        = buildColumns (rest.map columnEntry) (dictSet out nm v) := by
          simp [buildColumns, hv, hn, asKey]
      _ = buildColumns (rest.map columnEntry) (out ++ [(nm, v)]) := by
          rw [dictSet_append_of_not_mem out nm v hnotmem]
      _ = .ok ((out ++ [(nm, v)]) ++ rest) := ih _ hnd
      _ = .ok (out ++ (nm, v) :: rest) := by simp

/-- C7 counterexample: post-processing a result whose single column is
named `COLUMN` succeeds, but applying post-processing to that output
raises a `TypeError` (the loop subscripts the characters of the flattened
string value) — so applying post-processing twice does not equal applying
it once, and the claim fails as universally stated. -/
theorem sanitize_columns_counterexample :
    sanitizeColumns colTrap = .ok colTrapOnce ∧
    sanitizeColumns colTrapOnce = .error .typeError ∧
    sanitizeColumns colTrapOnce ≠ .ok colTrapOnce := by
  refine ⟨rfl, rfl, ?_⟩
  intro h
  rw [show sanitizeColumns colTrapOnce = .error .typeError from rfl] at h
  exact Except.noConfusion h

/-- C7 amended: post-processing replaces a `COLUMNS.COLUMN` sub-tree with a
flat `NAME → VALUE` mapping in place, both for a single `{NAME, VALUE}`
mapping and for a non-empty sequence of such mappings (with distinct
names); a tree whose `COLUMNS.COLUMN` lookup yields nothing (including an
already-flat `COLUMNS` mapping) passes through unchanged; and — provided
no column is named `"COLUMN"` itself — post-processing an already
flattened result is a no-op, so applying post-processing twice equals
applying it once. -/
theorem sanitize_columns_amended :
    (∀ (kvs ckvs : List (String × Value)) (nm : String) (v : Value),
      kvs.lookup "COLUMNS" = some (.dict ckvs) →
      ckvs.lookup "COLUMN" = some (columnEntry (nm, v)) →
      sanitizeColumns (.dict kvs) =
        .ok (.dict (dictSet kvs "COLUMNS" (.dict [(nm, v)])))) ∧
    (∀ (kvs ckvs cols : List (String × Value)),
      kvs.lookup "COLUMNS" = some (.dict ckvs) →
      ckvs.lookup "COLUMN" = some (.list (cols.map columnEntry)) →
      cols ≠ [] → (cols.map Prod.fst).Nodup →
      sanitizeColumns (.dict kvs) =
        .ok (.dict (dictSet kvs "COLUMNS" (.dict cols)))) ∧
    (∀ (data cv cols : Value),
      pyGetD data "COLUMNS" (.dict []) = .ok cv →
      pyGetD cv "COLUMN" (.list []) = .ok cols →
      pyLen cols = 0 →
      sanitizeColumns data = .ok data) ∧
    (∀ (kvs cols : List (String × Value)),
      "COLUMN" ∉ cols.map Prod.fst →
      sanitizeColumns (.dict (dictSet kvs "COLUMNS" (.dict cols))) =
        .ok (.dict (dictSet kvs "COLUMNS" (.dict cols)))) := by
  refine ⟨?_, ?_, ?_, ?_⟩
  · intro kvs ckvs nm v hC hCol
    unfold sanitizeColumns
    simp [pyGetD, hC, hCol, columnEntry, pyLen, pyItem, List.lookup, asKey,
      setItem, dictSet,
      show ("VALUE" == "NAME") = false from rfl,
      show ("VALUE" == "VALUE") = true from rfl,
      show ("NAME" == "NAME") = true from rfl]
  · intro kvs ckvs cols hC hCol hne hnd
    have hbc := buildColumns_map cols [] (by simpa using hnd)
    have hlen : ¬pyLen (.list (cols.map columnEntry)) < 1 := by
      simp [pyLen, Nat.lt_one_iff, List.length_eq_zero]
      exact hne
    unfold sanitizeColumns
    simp [pyGetD, hC, hCol, hlen, hbc, setItem]
  · intro data cv cols hcv hcols hlen
    unfold sanitizeColumns
    simp [hcv, hcols, hlen]
  · intro kvs cols hnm
    have hC : (dictSet kvs "COLUMNS" (.dict cols)).lookup "COLUMNS" =
        some (.dict cols) := dictSet_lookup_self kvs "COLUMNS" (.dict cols)
    have hCol : cols.lookup "COLUMN" = none :=
      lookup_eq_none_of_not_mem cols "COLUMN" hnm
    unfold sanitizeColumns
    simp [pyGetD, hC, hCol, pyLen]

/-- C7 witness: concrete runs with one, three, and zero `COLUMNS.COLUMN`
entries, and idempotence on the flattened three-column output. -/
theorem sanitize_columns_amended_witness :
    sanitizeColumns (.dict [("COLUMNS",
        .dict [("COLUMN", columnEntry ("a", .str "1"))])]) =
      .ok (.dict [("COLUMNS", .dict [("a", .str "1")])]) ∧
    sanitizeColumns (.dict [("COLUMNS", .dict [("COLUMN",
        .list [columnEntry ("a", .str "1"), columnEntry ("b", .str "2"),
               columnEntry ("c", .str "3")])])]) =
      .ok (.dict [("COLUMNS",
        .dict [("a", .str "1"), ("b", .str "2"), ("c", .str "3")])]) ∧
    sanitizeColumns (.dict [("COLUMNS", .dict [("a", .str "1")])]) =
      .ok (.dict [("COLUMNS", .dict [("a", .str "1")])]) ∧
    sanitizeColumns (.dict (dictSet [("JOB_ID", .str "1")] "COLUMNS"
        (.dict [("a", .str "1"), ("b", .str "2"), ("c", .str "3")]))) =
      .ok (.dict (dictSet [("JOB_ID", .str "1")] "COLUMNS"
        (.dict [("a", .str "1"), ("b", .str "2"), ("c", .str "3")]))) := by
  refine ⟨?_, ?_, ?_, ?_⟩
  · exact sanitize_columns_amended.1 [("COLUMNS",
      .dict [("COLUMN", columnEntry ("a", .str "1"))])]
      [("COLUMN", columnEntry ("a", .str "1"))] "a" (.str "1") rfl rfl
  · exact sanitize_columns_amended.2.1
      [("COLUMNS", .dict [("COLUMN",
        .list [columnEntry ("a", .str "1"), columnEntry ("b", .str "2"),
               columnEntry ("c", .str "3")])])]
      [("COLUMN", .list [columnEntry ("a", .str "1"),
        columnEntry ("b", .str "2"), columnEntry ("c", .str "3")])]
      [("a", .str "1"), ("b", .str "2"), ("c", .str "3")]
      rfl rfl (by simp) (by decide)
  · exact sanitize_columns_amended.2.2.1
      (.dict [("COLUMNS", .dict [("a", .str "1")])])
      (.dict [("a", .str "1")]) (.list []) rfl rfl rfl
  · exact sanitize_columns_amended.2.2.2 [("JOB_ID", .str "1")]
      [("a", .str "1"), ("b", .str "2"), ("c", .str "3")] (by decide)

end Silverpop
